import Mathlib

/-!
Verification of the text_creator desktop utility (src/text_creator.py).

The embedding below is a shallow model of the parts of the program the
claims concern: the configuration store (_load_config / _save_config),
the recording-session controller (AudioRecorder.start_recording,
AudioRecorder.stop_recording, AudioRecorder._record_audio), hotkey (re-)
registration (TextCreatorApp.register_hotkey) and the hotkey toggle
(TextCreatorApp.toggle_recording).

External collaborators (the OpenAI client, the sounddevice audio stream,
the keyboard library, the file system) are modelled as explicit
environment parameters carrying their observable outcomes, following the
spec, which treats them as opaque services with a narrow contract.
-/

/-- Scalar JSON values as they occur in the two configuration documents.
Numeric scalars are modelled as integers; the defaults 2.0 and 3.0 are
integral, and no claim depends on non-integral values. -/
inductive JVal where
  | str (s : String)
  | num (n : Int)
  | bool (b : Bool)
  | null
deriving DecidableEq

/-- Python truthiness of a scalar JSON value, as used by tests such as
`if not api_key` and `if not hotkey_combination` in the source. -/
def JVal.truthy : JVal → Bool
  | .str s => s ≠ ""
  | .num n => n ≠ 0
  | .bool b => b
  | .null => false

/-- A configuration document or merged configuration: a partial map from
string keys to scalar values (a Python dict as produced by json.load). -/
def CfgMap : Type := String → Option JVal

/-- Python dict.update: the entries of `d` override those of `base`. -/
def dictUpdate (base d : CfgMap) : CfgMap := fun k =>
  match d k with
  | some v => some v
  | none => base k

/-- Python dict assignment config[k] = v. -/
def dictSet (m : CfgMap) (k : String) (v : JVal) : CfgMap := fun q =>
  if q = k then some v else m q

/-- DEFAULT_MAIN_CONFIG of src/text_creator.py (lines 37-43). -/
def DEFAULT_MAIN_CONFIG : CfgMap := fun k =>
  if k = "model" then some (.str "whisper-1")
  else if k = "language" then some (.str "en")
  else if k = "energy_threshold" then some (.num 500)
  else if k = "record_timeout" then some (.num 2)
  else if k = "phrase_timeout" then some (.num 3)
  else none

/-- DEFAULT_SENSITIVE_CONFIG of src/text_creator.py (lines 45-48). -/
def DEFAULT_SENSITIVE_CONFIG : CfgMap := fun k =>
  if k = "hotkey" then some (.str "")
  else if k = "api_key" then some (.str "")
  else none

/-- TextCreatorApp._load_config (lines 371-392). Each document argument is
`some d` when the file exists and parses as the dict `d` (a well-formed
document), `none` when it is absent or unreadable; in the latter case the
corresponding defaults are used unchanged, exactly as the except-branches
of the source do. The merge `\x7b**main_config, **sensitive_config\x7d`
lets the sensitive document override the general one. -/
def _load_config (mainDoc sensitiveDoc : Option CfgMap) : CfgMap :=
  let main_config :=
    match mainDoc with
    | some d => dictUpdate DEFAULT_MAIN_CONFIG d
    | none => DEFAULT_MAIN_CONFIG
  let sensitive_config :=
    match sensitiveDoc with
    | some d => dictUpdate DEFAULT_SENSITIVE_CONFIG d
    | none => DEFAULT_SENSITIVE_CONFIG
  dictUpdate main_config sensitive_config

/-- Membership test `key in DEFAULT_SENSITIVE_CONFIG` used by _save_config:
the fixed secret-key set is the key set of DEFAULT_SENSITIVE_CONFIG,
namely hotkey and api_key. -/
def isSensitiveKey (k : String) : Bool := (DEFAULT_SENSITIVE_CONFIG k).isSome

/-- TextCreatorApp._save_config (lines 394-418): partitions the in-memory
configuration into the (general, sensitive) documents it writes, by fixed
membership in the secret-key set. File-write failures are logged and do
not change what was computed, so the pair returned is the partition
itself. -/
def _save_config (config : CfgMap) : CfgMap × CfgMap :=
  (fun k => if isSensitiveKey k then none else config k,
   fun k => if isSensitiveKey k then config k else none)

/-- Mutable state of AudioRecorder (src/text_creator.py lines 106-123):
the active flag, the ordered chunk buffer, whether a capture-thread handle
is set, whether self.client holds an initialized OpenAI client, and the
configuration mapping. The constant sample_rate and the GUI indicator
widget carry no claim-relevant state. -/
structure RecorderState where
  is_recording : Bool
  audio_data : List (List Int)
  recording_thread : Bool
  client : Bool
  config : CfgMap

/-- Outcome of the api-key test at line 129 of _init_openai_client:
`invalid` is the branch `not api_key or not api_key.strip() or
"your-api-key" in api_key` (missing, falsy, blank after strip, or a
placeholder), `typeErr` a truthy non-string value, whose .strip() call
raises and is caught by the outer handler, and `ok` a usable key. -/
inductive KeyCheck where
  | invalid
  | typeErr
  | ok (key : String)
deriving DecidableEq

/-- Substring containment, Python `needle in hay`. -/
def strContains (hay needle : String) : Bool :=
  decide (needle.toList <:+: hay.toList)

/-- Python str.strip(): drops leading and trailing whitespace. Whitespace
is modelled by Char.isWhitespace. -/
def pyStrip (s : String) : String :=
  ⟨((s.data.dropWhile Char.isWhitespace).reverse.dropWhile
      Char.isWhitespace).reverse⟩

def checkApiKey : Option JVal → KeyCheck
  | none => .invalid
  | some (.str s) =>
    if s = "" ∨ pyStrip s = "" ∨ strContains s "your-api-key" then .invalid
    else .ok s
  | some v => if v.truthy then .typeErr else .invalid

/-- AudioRecorder._init_openai_client (lines 125-156), returning the new
state, the boolean result and the status_update emissions. `probe_err` is
the outcome of the credential probe client.models.list(): `none` when the
remote accepts the key, `some e` when it raises with message `e`. On the
invalid-key branch the client field is left as it was (the source returns
without touching self.client); on a probe failure or a non-string key it
is cleared. -/
def _init_openai_client (s : RecorderState) (probe_err : Option String) :
    RecorderState × Bool × List String :=
  match checkApiKey (s.config "api_key") with
  | .invalid => (s, false, ["Error: No valid OpenAI API key found in config"])
  | .typeErr =>
      ({s with client := false}, false,
       ["Error initializing OpenAI client: ..."])
  | .ok _ =>
    match probe_err with
    | none => ({s with client := true}, true, [])
    | some e =>
        ({s with client := false}, false, ["Error testing OpenAI API: " ++ e])

/-- Environment of one start_recording call: the credential-probe outcome
(used only when self.client is None) and the audio-device enumeration at
lines 216-222, which either succeeds or raises with a message caught by
the handler at line 237. -/
structure StartEnv where
  probe_err : Option String
  device_err : Option String

/-- Observable outcome of start_recording: the state after the call, the
returned boolean, the status_update emissions, the
recording_state_changed emissions, and whether the QTimer prompt to
reopen settings was scheduled (line 211). -/
structure StartResult where
  state : RecorderState
  ok : Bool
  status : List String
  indicator : List Bool
  prompt_scheduled : Bool

/-- Portion of AudioRecorder.start_recording after the client check
(lines 214-245): device enumeration, then flag set, buffer cleared,
thread spawned; a device failure is caught at line 237, which emits the
error, re-clears the flag and emits the indicator change. -/
def start_capture_phase (s : RecorderState) (e : StartEnv)
    (msgs : List String) : StartResult :=
  match e.device_err with
  | some d =>
      ⟨{s with is_recording := false}, false,
       msgs ++ ["Error in start_recording: " ++ d], [false], false⟩
  | none =>
      ⟨{s with is_recording := true, audio_data := [], recording_thread := true},
       true, msgs ++ ["Recording..."], [true], false⟩

/-- AudioRecorder.start_recording (lines 195-245). The guard at line 200
returns False with no effect while already recording. The client check at
line 205 short-circuits: _init_openai_client runs only when self.client
is None, and its failure emits the line-206 message and schedules the
settings prompt. -/
def start_recording (s : RecorderState) (e : StartEnv) : StartResult :=
  if s.is_recording then ⟨s, false, [], [], false⟩
  else if s.client then start_capture_phase s e []
  else
    match _init_openai_client s e.probe_err with
    | (s1, true, msgs) => start_capture_phase s1 e msgs
    | (s1, false, msgs) =>
        ⟨s1, false,
         msgs ++
           ["Error: Failed to initialize OpenAI client. Please check your API key."],
         [], true⟩

/-- Environment of one stop_recording call: the outcome of the remote
transcription request (line 270), `.ok t` when the service answers with
text `t`, `.error m` when it raises with message `m`. The temporary-file
write and unlink are modelled as succeeding, per the external contract of
the file system assumed by the spec. -/
structure StopEnv where
  transcribe : Except String String

/-- Observable outcome of stop_recording: state, returned string, status
emissions, indicator emissions, how many transcription requests were
issued, and whether the temporary waveform container was created and
whether it was deleted before returning. -/
structure StopResult where
  state : RecorderState
  text : String
  status : List String
  indicator : List Bool
  remote_calls : Nat
  temp_created : Bool
  temp_deleted : Bool

/-- AudioRecorder.stop_recording (lines 247-288). The guard at line 248
returns the empty string with no effect while idle. Otherwise the flag is
cleared, the indicator change emitted, the capture thread joined; with an
empty chunk buffer the call reports No audio recorded and returns the
empty string; otherwise the chunks are written to a temporary container,
one transcription request is made, on success the text is returned
trimmed (with a completion status when non-empty), on failure the error
is reported on the status channel and the empty string returned, and the
finally-block at line 284 unlinks the container on both paths. The chunk
buffer and the thread handle are not cleared by stop. -/
def stop_recording (s : RecorderState) (e : StopEnv) : StopResult :=
  if ¬ s.is_recording then ⟨s, "", [], [], 0, false, false⟩
  else
    let s1 := {s with is_recording := false}
    if s1.audio_data = [] then
      ⟨s1, "", ["No audio recorded"], [false], 0, false, false⟩
    else
      match e.transcribe with
      | .ok t =>
          ⟨s1, pyStrip t,
           "Transcribing..." ::
             (if pyStrip t = "" then [] else ["Transcription complete"]),
           [false], 1, true, true⟩
      | .error msg =>
          ⟨s1, "",
           ["Transcribing...", "Error in transcription: " ++ msg],
           [false], 1, true, true⟩

/-- Effect on the recorder state of a capture run of _record_audio whose
stream opened (lines 290-319): the callback appends each arriving chunk
to the buffer while the flag is up; `frames` is the batch captured during
the session. The flag is not written on this path. -/
def _record_audio_ok (s : RecorderState) (frames : List (List Int)) :
    RecorderState :=
  {s with audio_data := s.audio_data ++ frames}

/-- Failure path of _record_audio (lines 321-328): the stream raised with
message `msg`; the worker emits the error, clears the flag and emits the
indicator change. -/
def _record_audio_fail (s : RecorderState) (msg : String) :
    RecorderState × List String × List Bool :=
  ({s with is_recording := false}, ["Error in audio stream: " ++ msg], [false])

/-- AudioRecorder.__init__ (lines 111-123): flag down, empty buffer, no
thread, no client, then _init_openai_client is called once. -/
def recorder_init (config : CfgMap) (probe_err : Option String) :
    RecorderState × Bool × List String :=
  _init_openai_client ⟨false, [], false, false, config⟩ probe_err

/-- Phases of the recording-session state machine of the spec. -/
inductive SessionPhase where
  | idle
  | recording
deriving DecidableEq

/-- Phase of a recorder state: Recording exactly when the active flag is
up. -/
def phase (s : RecorderState) : SessionPhase :=
  if s.is_recording then .recording else .idle

/-- Operations that touch the session state: the two controller entry
points and the two terminations of the capture worker. -/
inductive ROp where
  | start (e : StartEnv)
  | stop (e : StopEnv)
  | capture (frames : List (List Int))
  | captureFail (msg : String)

/-- One step of the session state machine, as the source implements it. -/
def stepRecorder (s : RecorderState) : ROp → RecorderState
  | .start e => (start_recording s e).state
  | .stop e => (stop_recording s e).state
  | .capture frames => _record_audio_ok s frames
  | .captureFail msg => (_record_audio_fail s msg).1

/-- Hotkey-bridge state: the configuration and the list of key
combinations currently registered with the OS keyboard hook. -/
structure HotkeyState where
  config : CfgMap
  bindings : List JVal

/-- TextCreatorApp.register_hotkey (lines 449-478): keyboard.unhook_all()
drops every existing binding, then the combination is read from the
configuration; a falsy value falls back to ctrl+alt+d, which is written
back to the configuration (and saved); keyboard.add_hotkey then installs
the one new binding. The add_hotkey call is modelled per the external
register contract of the spec, which accepts the combination. -/
def register_hotkey (a : HotkeyState) : HotkeyState :=
  let a1 : HotkeyState := {a with bindings := []}
  match a1.config "hotkey" with
  | some v =>
      if v.truthy then {a1 with bindings := [v]}
      else
        {a1 with config := dictSet a1.config "hotkey" (.str "ctrl+alt+d"),
                 bindings := [JVal.str "ctrl+alt+d"]}
  | none =>
      {a1 with config := dictSet a1.config "hotkey" (.str "ctrl+alt+d"),
               bindings := [JVal.str "ctrl+alt+d"]}

/-- Re-registration after a settings change (update_config, lines
420-427 and 541-547): the new combination is stored under the hotkey key
and register_hotkey runs again. The settings dialog always stores a
string combination. -/
def reRegister (a : HotkeyState) (combo : String) : HotkeyState :=
  register_hotkey {a with config := dictSet a.config "hotkey" (.str combo)}

/-- Observable outcome of TextCreatorApp.toggle_recording: the app-side
recording flag after the call, the recorder state, and the string handed
to keyboard.write, when any. -/
structure ToggleResult where
  app_is_recording : Bool
  recorder : RecorderState
  injected : Option String

/-- TextCreatorApp.toggle_recording (lines 480-524). While the app-side
flag is up the call stops the session and injects the transcript as
keystrokes only when `text and text.strip()` is truthy; otherwise it
starts a session and raises the flag only when start_recording returned
True. -/
def toggle_recording (app_flag : Bool) (r : RecorderState)
    (startE : StartEnv) (stopE : StopEnv) : ToggleResult :=
  if app_flag then
    let res := stop_recording r stopE
    ⟨false, res.state,
     if res.text ≠ "" ∧ pyStrip res.text ≠ "" then some res.text else none⟩
  else
    let res := start_recording r startE
    ⟨res.ok, res.state, none⟩

/-! Sample states used by the witnesses. -/

def emptyCfg : CfgMap := fun _ => none

/-- A recorder in the middle of a session that captured one chunk. -/
def sampleActive : RecorderState := ⟨true, [[1]], true, true, emptyCfg⟩

/-- An idle recorder with no client and no api_key entry. -/
def sampleNoKey : RecorderState := ⟨false, [], false, false, emptyCfg⟩

def credEnv : StartEnv := ⟨none, none⟩

def stopErrEnv : StopEnv := ⟨Except.error "boom"⟩

def stopOkEnv : StopEnv := ⟨Except.ok "  hello world "⟩

/-! Helper lemmas about the embedded operations. -/

theorem init_preserves_session (s : RecorderState) (p : Option String) :
    ((_init_openai_client s p).1).is_recording = s.is_recording
    ∧ ((_init_openai_client s p).1).audio_data = s.audio_data
    ∧ ((_init_openai_client s p).1).recording_thread = s.recording_thread := by
  cases hk : checkApiKey (s.config "api_key") with
  | invalid => simp [_init_openai_client, hk]
  | typeErr => simp [_init_openai_client, hk]
  | ok key => cases p <;> simp [_init_openai_client, hk]

theorem start_recording_of_active (s : RecorderState) (e : StartEnv)
    (h : s.is_recording = true) :
    start_recording s e = ⟨s, false, [], [], false⟩ := by
  simp [start_recording, h]

theorem start_flag_eq_ok (s : RecorderState) (e : StartEnv)
    (h : s.is_recording = false) :
    (start_recording s e).state.is_recording = (start_recording s e).ok := by
  unfold start_recording
  rw [if_neg (by simp [h])]
  by_cases hc : s.client
  · rw [if_pos hc]
    unfold start_capture_phase
    cases e.device_err <;> rfl
  · rw [if_neg hc]
    rcases hinit : _init_openai_client s e.probe_err with ⟨s1, ok, msgs⟩
    have hs1 : s1.is_recording = false := by
      have := (init_preserves_session s e.probe_err).1
      rw [hinit] at this
      rw [this, h]
    cases ok with
    | true =>
        simp only [hinit]
        unfold start_capture_phase
        cases e.device_err <;> simp [hs1]
    | false =>
        simp only [hinit]
        exact hs1

theorem stop_state_flag (s : RecorderState) (e : StopEnv) :
    (stop_recording s e).state.is_recording = false := by
  unfold stop_recording
  by_cases h : s.is_recording
  · rw [if_neg (by simp [h])]
    dsimp only
    split
    · rfl
    · split <;> rfl
  · rw [if_pos (by simpa using h)]
    simpa using h

theorem stop_text_of_no_audio (s : RecorderState) (e : StopEnv)
    (h : s.audio_data = []) : (stop_recording s e).text = "" := by
  unfold stop_recording
  by_cases hr : s.is_recording
  · rw [if_neg (by simp [hr])]
    dsimp only
    rw [if_pos h]
  · rw [if_pos (by simpa using hr)]

theorem stop_text_of_error (s : RecorderState) (e : StopEnv) (msg : String)
    (h : e.transcribe = .error msg) : (stop_recording s e).text = "" := by
  unfold stop_recording
  by_cases hr : s.is_recording
  · rw [if_neg (by simp [hr])]
    dsimp only
    split
    · rfl
    · rw [h]
  · rw [if_pos (by simpa using hr)]

theorem strContains_append_right (a b : String) :
    strContains (a ++ b) b = true := by
  have hl : (a ++ b).toList = a.toList ++ b.toList := by simp [String.toList]
  simp only [strContains, hl, decide_eq_true_eq]
  exact (List.suffix_append a.toList b.toList).isInfix

theorem register_hotkey_one_binding (a : HotkeyState) :
    (register_hotkey a).bindings.length = 1 := by
  cases h : a.config "hotkey" with
  | some v => by_cases hv : v.truthy <;> simp [register_hotkey, h, hv]
  | none => simp [register_hotkey, h]

theorem phase_eq_idle (s : RecorderState) :
    phase s = .idle ↔ s.is_recording = false := by
  unfold phase
  by_cases h : s.is_recording <;> simp [h]

theorem phase_eq_recording (s : RecorderState) :
    phase s = .recording ↔ s.is_recording = true := by
  unfold phase
  by_cases h : s.is_recording <;> simp [h]

theorem init_fails_of_bad (s : RecorderState) (p : Option String)
    (hbad : (∀ k, checkApiKey (s.config "api_key") ≠ KeyCheck.ok k) ∨
      p ≠ none) :
    (_init_openai_client s p).2.1 = false := by
  cases hk : checkApiKey (s.config "api_key") with
  | invalid => simp [_init_openai_client, hk]
  | typeErr => simp [_init_openai_client, hk]
  | ok key =>
      cases hp : p with
      | some m => simp [_init_openai_client, hk]
      | none =>
          rcases hbad with hb | hb
          · exact absurd hk (hb key)
          · exact absurd hp hb

/-! The claims. -/

theorem load_config_key (m s : CfgMap) (k : String) :
    _load_config (some m) (some s) k =
      match s k with
      | some v => some v
      | none =>
        match DEFAULT_SENSITIVE_CONFIG k with
        | some v => some v
        | none =>
          match m k with
          | some v => some v
          | none => DEFAULT_MAIN_CONFIG k := by
  simp only [_load_config, dictUpdate]
  cases s k <;> cases DEFAULT_SENSITIVE_CONFIG k <;> cases m k <;> rfl

theorem isSensitiveKey_iff (k : String) :
    isSensitiveKey k = true ↔ (k = "hotkey" ∨ k = "api_key") := by
  by_cases h1 : k = "hotkey" <;> by_cases h2 : k = "api_key" <;>
    simp [isSensitiveKey, DEFAULT_SENSITIVE_CONFIG, h1, h2]

/-- C4: load, then save of the loaded mapping, then load again gives the
same effective mapping as the first load, for any pair of well-formed
documents. -/
theorem C4_load_save_load_roundtrip (m s : CfgMap) :
    _load_config (some (_save_config (_load_config (some m) (some s))).1)
                 (some (_save_config (_load_config (some m) (some s))).2)
      = _load_config (some m) (some s) := by
  funext k
  simp only [load_config_key, _save_config, isSensitiveKey]
  cases hds : DEFAULT_SENSITIVE_CONFIG k with
  | some d => cases s k <;> simp [hds]
  | none => cases hs : s k <;> cases hm : m k <;> cases DEFAULT_MAIN_CONFIG k <;>
      simp [hds]

/-- C5: load applies built-in defaults to keys absent from both
documents, the secret document overrides the general one key-wise, and
save partitions by fixed membership in the secret-key set consisting of
hotkey and api_key. -/
theorem C5_merge_defaults_and_partition :
    (∀ (m s : CfgMap) (k : String), m k = none → s k = none →
      _load_config (some m) (some s) k = _load_config none none k)
  ∧ (∀ (m s : CfgMap) (k : String) (vg v : JVal), m k = some vg → s k = some v →
      _load_config (some m) (some s) k = some v)
  ∧ (∀ (config : CfgMap) (k : String),
      (_save_config config).2 k
        = (if k = "hotkey" ∨ k = "api_key" then config k else none)
      ∧ (_save_config config).1 k
        = (if k = "hotkey" ∨ k = "api_key" then none else config k)) := by
  refine ⟨fun m s k hm hs => ?_, fun m s k vg v hm hs => ?_, fun config k => ?_⟩
  · simp only [load_config_key, hm, hs, _load_config, dictUpdate]
  · simp only [load_config_key, hs]
  · constructor <;>
      · simp only [_save_config]
        by_cases h : isSensitiveKey k = true
        · simp [h, (isSensitiveKey_iff k).mp h]
        · have : ¬(k = "hotkey" ∨ k = "api_key") := fun hc =>
            h ((isSensitiveKey_iff k).mpr hc)
          simp [Bool.not_eq_true] at h
          simp [h, this]

/-- C1: the recording-session controller has exactly the two phases Idle
and Recording and starts Idle; a successful start_recording is the only
way to enter Recording; Recording is left only by stop_recording or by a
failing capture worker, which is a failure path; and every failure path
lands in Idle: a failed start from Idle stays Idle, stop_recording always
ends Idle (on its success and failure paths alike), and a capture-worker
failure ends Idle. There is no third, Error phase. -/
theorem C1_two_state_controller :
    (∀ s : RecorderState, phase s = .idle ∨ phase s = .recording)
  ∧ (∀ (cfg : CfgMap) (p : Option String),
      phase (recorder_init cfg p).1 = .idle)
  ∧ (∀ (s : RecorderState) (op : ROp),
      phase (stepRecorder s op) = .recording →
      phase s = .recording ∨
        ∃ e, op = .start e ∧ (start_recording s e).ok = true)
  ∧ (∀ (s : RecorderState) (op : ROp), phase s = .recording →
      phase (stepRecorder s op) = .idle →
      (∃ e, op = .stop e) ∨ (∃ m, op = .captureFail m))
  ∧ (∀ (s : RecorderState) (e : StartEnv), phase s = .idle →
      (start_recording s e).ok = false →
      phase (start_recording s e).state = .idle)
  ∧ (∀ (s : RecorderState) (e : StopEnv),
      phase (stop_recording s e).state = .idle)
  ∧ (∀ (s : RecorderState) (m : String),
      phase (stepRecorder s (.captureFail m)) = .idle) := by
  refine ⟨?_, ?_, ?_, ?_, ?_, ?_, ?_⟩
  · intro s
    by_cases h : s.is_recording
    · right; simp [phase, h]
    · left; simp [phase, h]
  · intro cfg p
    have h := (init_preserves_session ⟨false, [], false, false, cfg⟩ p).1
    rw [phase_eq_idle]
    simpa [recorder_init] using h
  · intro s op hrec
    cases op with
    | start e =>
        by_cases hs : s.is_recording
        · left; simp [phase, hs]
        · refine Or.inr ⟨e, rfl, ?_⟩
          have hflag := start_flag_eq_ok s e (by simpa using hs)
          have hstate : (start_recording s e).state.is_recording = true :=
            (phase_eq_recording _).mp hrec
          rw [← hflag]
          exact hstate
    | stop e =>
        exact absurd ((phase_eq_recording _).mp hrec)
          (by simp [stepRecorder, stop_state_flag s e])
    | capture frames =>
        left
        have h := (phase_eq_recording _).mp hrec
        rw [phase_eq_recording]
        simpa [stepRecorder, _record_audio_ok] using h
    | captureFail m =>
        exact absurd ((phase_eq_recording _).mp hrec)
          (by simp [stepRecorder, _record_audio_fail])
  · intro s op h1 h2
    cases op with
    | start e =>
        exfalso
        have hs := (phase_eq_recording _).mp h1
        have heq := start_recording_of_active s e hs
        have h2s : phase (start_recording s e).state = .idle := h2
        rw [heq] at h2s
        rw [phase_eq_idle] at h2s
        dsimp at h2s
        rw [hs] at h2s
        simp at h2s
    | stop e => exact Or.inl ⟨e, rfl⟩
    | capture frames =>
        exfalso
        have hs := (phase_eq_recording _).mp h1
        rw [phase_eq_idle] at h2
        dsimp [stepRecorder, _record_audio_ok] at h2
        rw [hs] at h2
        simp at h2
    | captureFail m => exact Or.inr ⟨m, rfl⟩
  · intro s e h1 h2
    rw [phase_eq_idle] at h1 ⊢
    rw [start_flag_eq_ok s e h1, h2]
  · intro s e
    rw [phase_eq_idle]
    exact stop_state_flag s e
  · intro s m
    rw [phase_eq_idle]
    rfl

/-- C2: for an active session, stop_recording returns the transcript, or
the empty string when no audio was captured or when the remote call
fails; a remote failure is reported as exactly one status message
containing the failure reason (the only other emission of that path,
Transcribing..., does not contain it), and exactly one remote request is
made, so a failed call is not retried. The embedded stop_recording is a
total function: no failure reaches the caller as a thrown error. -/
theorem C2_stop_failure_channel (s : RecorderState) (e : StopEnv)
    (h : s.is_recording = true) :
    (s.audio_data = [] → (stop_recording s e).text = "")
  ∧ (∀ t, e.transcribe = .ok t → s.audio_data ≠ [] →
      (stop_recording s e).text = pyStrip t)
  ∧ (∀ msg, e.transcribe = .error msg → (stop_recording s e).text = "")
  ∧ (∀ msg, s.audio_data ≠ [] → e.transcribe = .error msg →
      (stop_recording s e).remote_calls = 1
      ∧ (strContains "Transcribing..." msg = false →
          (stop_recording s e).status.countP
            (fun m => strContains m msg) = 1)) := by
  refine ⟨fun ha => stop_text_of_no_audio s e ha, fun t ht hne => ?_,
    fun msg hmsg => stop_text_of_error s e msg hmsg,
    fun msg hne herr => ?_⟩
  · unfold stop_recording
    rw [if_neg (by simp [h])]
    dsimp only
    rw [if_neg (by simpa using hne), ht]
  · unfold stop_recording
    rw [if_neg (by simp [h])]
    dsimp only
    rw [if_neg (by simpa using hne), herr]
    refine ⟨rfl, fun hnc => ?_⟩
    simp [List.countP_cons, strContains_append_right, hnc]

theorem C2_stop_failure_channel_witness :
    (stop_recording sampleActive stopErrEnv).text = ""
    ∧ (stop_recording sampleActive stopErrEnv).remote_calls = 1
    ∧ (stop_recording sampleActive stopErrEnv).status.countP
        (fun m => strContains m "boom") = 1 := by
  have hmain := C2_stop_failure_channel sampleActive stopErrEnv rfl
  exact ⟨hmain.2.2.1 "boom" rfl, (hmain.2.2.2 "boom" (by decide) rfl).1,
    (hmain.2.2.2 "boom" (by decide) rfl).2 (by decide)⟩

/-- C3: start_recording without a usable credential (the key check
rejects the configured api_key, or the credential probe raises) returns
False, schedules the asynchronous settings prompt, and leaves the session
state unchanged in Idle: the active flag stays down and the chunk buffer
and thread handle are untouched. The failure is the CredentialError of
the spec taxonomy, surfaced as the line-206 status message. -/
theorem C3_credential_error_prompt (s : RecorderState) (e : StartEnv)
    (hidle : s.is_recording = false) (hclient : s.client = false)
    (hbad : (∀ k, checkApiKey (s.config "api_key") ≠ KeyCheck.ok k) ∨
      e.probe_err ≠ none) :
    (start_recording s e).ok = false
    ∧ (start_recording s e).prompt_scheduled = true
    ∧ (start_recording s e).state.is_recording = false
    ∧ (start_recording s e).state.audio_data = s.audio_data
    ∧ (start_recording s e).state.recording_thread = s.recording_thread
    ∧ "Error: Failed to initialize OpenAI client. Please check your API key."
        ∈ (start_recording s e).status := by
  have hfail := init_fails_of_bad s e.probe_err hbad
  have hpres := init_preserves_session s e.probe_err
  unfold start_recording
  rw [if_neg (by simp [hidle]), if_neg (by simp [hclient])]
  rcases hinit : _init_openai_client s e.probe_err with ⟨s1, ok, msgs⟩
  rw [hinit] at hfail hpres
  dsimp at hfail hpres
  cases ok with
  | true => simp at hfail
  | false =>
      simp only [hinit]
      refine ⟨trivial, trivial, ?_, hpres.2.1, hpres.2.2, by simp⟩
      rw [hpres.1, hidle]

theorem C3_credential_error_prompt_witness :
    (start_recording sampleNoKey credEnv).ok = false
    ∧ (start_recording sampleNoKey credEnv).prompt_scheduled = true
    ∧ (start_recording sampleNoKey credEnv).state.is_recording = false := by
  have h := C3_credential_error_prompt sampleNoKey credEnv rfl rfl
    (Or.inl (fun k hk => by simp [sampleNoKey, emptyCfg, checkApiKey] at hk))
  exact ⟨h.1, h.2.1, h.2.2.1⟩

/-- C6: when the remote transcription call of an active session with a
non-empty chunk buffer answers with text t, stop_recording returns t with
surrounding whitespace trimmed. -/
theorem C6_success_returns_trimmed (s : RecorderState) (e : StopEnv)
    (t : String) (hrec : s.is_recording = true) (hdata : s.audio_data ≠ [])
    (ht : e.transcribe = .ok t) :
    (stop_recording s e).text = pyStrip t := by
  unfold stop_recording
  rw [if_neg (by simp [hrec])]
  dsimp only
  rw [if_neg (by simpa using hdata), ht]

theorem C6_success_returns_trimmed_witness :
    (stop_recording sampleActive stopOkEnv).text = "hello world" := by
  have h := C6_success_returns_trimmed sampleActive stopOkEnv
    "  hello world " rfl (by decide) rfl
  rw [h]
  decide

/-- C7: after stop_recording on an active session that captured at least
one chunk, the temporary waveform container written for the upload was
created and deleted again before returning, on the success and the
failure path of the remote call alike (the finally-block at line 284). -/
theorem C7_temp_container_removed (s : RecorderState) (e : StopEnv)
    (hrec : s.is_recording = true) (hdata : s.audio_data ≠ []) :
    (stop_recording s e).temp_created = true
    ∧ (stop_recording s e).temp_deleted = true := by
  unfold stop_recording
  rw [if_neg (by simp [hrec])]
  dsimp only
  rw [if_neg (by simpa using hdata)]
  cases e.transcribe <;> simp

theorem C7_temp_container_removed_witness :
    (stop_recording sampleActive stopErrEnv).temp_created = true
    ∧ (stop_recording sampleActive stopErrEnv).temp_deleted = true :=
  C7_temp_container_removed sampleActive stopErrEnv rfl (by decide)

/-- C8: register_hotkey first drops every existing binding and then
installs the one new combination, so a single registration, and any
non-empty sequence of consecutive re-registrations with arbitrary
combinations, leaves exactly one active binding. -/
theorem C8_exactly_one_binding :
    (∀ a : HotkeyState, (register_hotkey a).bindings.length = 1)
  ∧ (∀ (a : HotkeyState) (combos : List String), combos ≠ [] →
      (combos.foldl reRegister a).bindings.length = 1) := by
  have haux : ∀ (combos : List String) (a : HotkeyState),
      a.bindings.length = 1 →
      (combos.foldl reRegister a).bindings.length = 1 := by
    intro combos
    induction combos with
    | nil => intro a h; exact h
    | cons c rest ih =>
        intro a h
        rw [List.foldl_cons]
        exact ih _ (register_hotkey_one_binding _)
  refine ⟨register_hotkey_one_binding, fun a combos h => ?_⟩
  cases combos with
  | nil => exact absurd rfl h
  | cons c rest =>
      rw [List.foldl_cons]
      exact haux rest _ (register_hotkey_one_binding _)

/-- C9: start_recording called while already recording is a no-op that
returns False: the state (active flag, chunk buffer, thread handle,
client, configuration) is returned unchanged, no status message and no
indicator change is emitted, and no settings prompt is scheduled. -/
theorem C9_start_noop_while_recording (s : RecorderState) (e : StartEnv)
    (h : s.is_recording = true) :
    start_recording s e = ⟨s, false, [], [], false⟩ :=
  start_recording_of_active s e h

theorem C9_start_noop_while_recording_witness :
    start_recording sampleActive credEnv = ⟨sampleActive, false, [], [], false⟩ :=
  C9_start_noop_while_recording sampleActive credEnv rfl

/-- C10: a toggle that stops a session hands the transcript to
keyboard.write exactly when it is non-empty after stripping whitespace;
in particular a session with no captured audio and a failed remote call
(the failure paths of stop_recording, which return the empty string)
inject nothing. -/
theorem C10_injection_requires_nonblank (r : RecorderState) (sE : StartEnv)
    (eE : StopEnv) :
    ((toggle_recording true r sE eE).injected
      = (if pyStrip (stop_recording r eE).text = "" then none
         else some ((stop_recording r eE).text)))
  ∧ (r.audio_data = [] → (toggle_recording true r sE eE).injected = none)
  ∧ (∀ msg, eE.transcribe = .error msg →
      (toggle_recording true r sE eE).injected = none) := by
  have hmain : (toggle_recording true r sE eE).injected
      = (if pyStrip (stop_recording r eE).text = "" then none
         else some ((stop_recording r eE).text)) := by
    unfold toggle_recording
    rw [if_pos rfl]
    dsimp only
    by_cases htr : pyStrip (stop_recording r eE).text = ""
    · rw [if_pos htr, if_neg]
      rintro ⟨hne, hnt⟩
      exact hnt htr
    · rw [if_neg htr, if_pos]
      refine ⟨?_, htr⟩
      intro h0
      apply htr
      rw [h0]
      decide
  refine ⟨hmain, fun ha => ?_, fun msg hmsg => ?_⟩
  · rw [hmain, stop_text_of_no_audio r eE ha, if_pos (by decide)]
  · rw [hmain, stop_text_of_error r eE msg hmsg, if_pos (by decide)]
